import Mathlib

/-
Verification of the `ct` trading agent against its specification.

The Rust sources are shallowly embedded: `f64` prices and quantities are
modelled as exact rationals (ℚ), `math::round::floor`/`ceil` as flooring or
ceiling at a number of decimal places, `Vec`/`VecDeque` as lists together with
an explicit capacity where the source consults `Vec::capacity`, and effectful
exchange calls as oracle parameters describing the exchange's responses, with
the requests the code sends collected into an action trace.
-/

namespace CT

/-- math::round::floor(x, d): round x down to d decimal places. -/
def floorDp (x : ℚ) (d : ℤ) : ℚ := (Int.floor (x * (10:ℚ)^d) : ℚ) / (10:ℚ)^d

/-- math::round::ceil(x, d): round x up to d decimal places. -/
def ceilDp (x : ℚ) (d : ℤ) : ℚ := (Int.ceil (x * (10:ℚ)^d) : ℚ) / (10:ℚ)^d

/-- position.rs: PositionType. -/
inductive PositionType where
  | Long
  | Short
  | None
deriving DecidableEq, Repr

/-- position.rs: Position. -/
structure Position where
  type : PositionType
  qty : ℚ
  price : ℚ
deriving DecidableEq, Repr

/-- candlestick.rs: CandleColor. -/
inductive CandleColor where
  | GREEN
  | RED
deriving DecidableEq, Repr

/-- order.rs: OrderType. -/
inductive OrderType where
  | Market
  | Limit
deriving DecidableEq, Repr

/-- process_md.rs: TradeSignal. -/
inductive TradeSignal where
  | MaCross
  | MaTrendReversal
  | MACDSig
deriving DecidableEq, Repr

/-- account_manager.rs: OrderQuantity. -/
inductive OrderQuantity where
  | Exact (q : ℚ)
  | PercentageAmount (q : ℕ)
  | Percentage25
  | Percentage50
  | Percentage75
  | Percentage100
deriving DecidableEq, Repr

/-- tradingpair.rs: BvltType. -/
inductive BvltType where
  | BvltUp
  | BvltDown
deriving DecidableEq, Repr

/-- tradingpair.rs: TradingPair (resolved immutable metadata). -/
structure TradingPair where
  name : String
  symbol : String
  sell_currency : String
  buy_currency : String
  bvlt_type : Option BvltType
  price_dps : ℤ
  qty_dps : ℤ
  min_order : ℚ
  tick_size : ℚ
  min_notional : ℚ
deriving DecidableEq, Repr

/-- ma.rs: MAData. The accumulator is a VecDeque with the newest close at the
front (push_front) and the oldest at the back (pop_back). -/
structure MAData where
  latest : Option ℚ
  penultimate : Option ℚ
  penultimate_penultimate : Option ℚ
  acc : List ℚ
  num_candles : ℕ
deriving DecidableEq, Repr

/-- ma.rs: MAData::new. -/
def MAData.new (num_candles : ℕ) : MAData :=
  { latest := none, penultimate := none, penultimate_penultimate := none,
    acc := [], num_candles := num_candles }

/-- ma.rs: MAData::update. -/
def MAData.update (m : MAData) (new_ma : ℚ) : MAData :=
  { m with penultimate_penultimate := m.penultimate,
           penultimate := m.latest,
           latest := some new_ma }

/-- ma.rs: MAData::compute. -/
def MAData.compute (m : MAData) (close_price : ℚ) (ema : Bool) : MAData :=
  if m.num_candles = 0 then m
  else
    let acc0 := if m.acc.length = m.num_candles then m.acc.dropLast else m.acc
    let acc1 := close_price :: acc0
    let m1 := { m with acc := acc1 }
    if acc1.length = m.num_candles then
      let new_ma := acc1.sum / (m.num_candles : ℚ)
      if ema then
        let prev_ema := m.latest.getD new_ma
        let weight : ℚ := 2 / ((m.num_candles : ℚ) + 1)
        m1.update (close_price * weight + prev_ema * (1 - weight))
      else
        m1.update new_ma
    else m1

/-- ma.rs: MACD. -/
structure MACD where
  ema12 : MAData
  ema26 : MAData
  signal : MAData
  macd_latest : Option ℚ
  macd_previous : Option ℚ
deriving DecidableEq, Repr

/-- ma.rs: MACD::new. -/
def MACD.new : MACD :=
  { ema12 := MAData.new 12, ema26 := MAData.new 26, signal := MAData.new 9,
    macd_latest := none, macd_previous := none }

/-- ma.rs: MACD::compute. The ema12 unwrap is total in the source because
ema26 warming up (26 closes seen) implies ema12 is warm as well; the
impossible case is given the value 0. -/
def MACD.compute (m : MACD) (close_price : ℚ) : MACD :=
  let e12 := m.ema12.compute close_price true
  let e26 := m.ema26.compute close_price true
  match e26.latest with
  | some l26 =>
    let prev := if m.macd_latest.isSome then m.macd_latest else m.macd_previous
    let macd := (e12.latest.getD 0) - l26
    { ema12 := e12, ema26 := e26, signal := m.signal.compute macd true,
      macd_latest := some macd, macd_previous := prev }
  | none => { m with ema12 := e12, ema26 := e26 }

/-- process_md.rs: MarketDataTracker. `candle_color_capacity` models the
capacity of the `candle_color_history` Vec, which the source consults via
`Vec::capacity()`; it is created with `Vec::with_capacity(confirmation_candles
.unwrap_or(0))`. -/
structure MarketDataTracker where
  slow_ma_data : MAData
  fast_ma_data : MAData
  macd : MACD
  desired_position : PositionType
  trade_signal : TradeSignal
  candle_color_history : List CandleColor
  candle_color_capacity : ℕ
  ema : Bool
  bvlt : Bool
  order_type : OrderType
  limit_offset : Option ℕ
  stop_percent : Option ℚ
  take_profit_percent : Option ℚ
  confirmation_candles : Option ℕ
  macd_trend_ma : MAData
deriving DecidableEq, Repr

/-- process_md.rs: trade_confirmation_via_previous_candles. `Vec::pop`
removes the LAST element (dropLast) and `Vec::push` appends at the end; a
push with length equal to capacity grows the capacity as Rust's amortized
growth does for a 1-byte element type (to max(2·cap, 8)). -/
def trade_confirmation_via_previous_candles (mt : MarketDataTracker)
    (closing_price : ℚ) (prev_closing_price : Option ℚ) :
    MarketDataTracker × Option (Bool × CandleColor) :=
  match mt.confirmation_candles with
  | Option.none => (mt, none)
  | some num_confirmations =>
    match prev_closing_price with
    | Option.none => (mt, some (false, CandleColor.GREEN))
    | some prev =>
      let hist0 := if num_confirmations = mt.candle_color_capacity
                   then mt.candle_color_history.dropLast
                   else mt.candle_color_history
      let color := if prev ≤ closing_price then CandleColor.GREEN else CandleColor.RED
      let hist := hist0 ++ [color]
      let cap := if hist0.length < mt.candle_color_capacity
                 then mt.candle_color_capacity
                 else max (2 * mt.candle_color_capacity) 8
      let mt1 := { mt with candle_color_history := hist, candle_color_capacity := cap }
      (mt1, some (hist.all (fun c => c = hist.headD CandleColor.GREEN),
                  hist.headD CandleColor.GREEN))

/-- ma.rs: trading_decision_ma_cross. -/
def trading_decision_ma_cross (tp : TradingPair) (mt : MarketDataTracker)
    (_closing_price : ℚ) : PositionType :=
  match mt.fast_ma_data.latest, mt.slow_ma_data.latest, mt.fast_ma_data.penultimate with
  | some fl, some sl, some fp =>
    let dps := tp.price_dps
    let f_ma_latest_val := floorDp fl dps
    let f_ma_prev_val := floorDp fp dps
    let s_ma_latest_val := floorDp sl dps
    if f_ma_latest_val > s_ma_latest_val ∧ f_ma_prev_val < s_ma_latest_val then
      PositionType.Long
    else if f_ma_latest_val < s_ma_latest_val ∧ f_ma_prev_val > s_ma_latest_val then
      PositionType.Short
    else PositionType.None
  | _, _, _ => PositionType.None

/-- ma.rs: trading_decision_ma_trend_change. Note that the source reads `c`
from `slow_ma_data.latest()` (not from the fast MA). -/
def trading_decision_ma_trend_change (_tp : TradingPair) (mt : MarketDataTracker)
    (_closing_price : ℚ) : PositionType :=
  match mt.slow_ma_data.latest, mt.fast_ma_data.latest, mt.fast_ma_data.penultimate,
        mt.fast_ma_data.penultimate_penultimate with
  | some c, some _, some p, some pp =>
    if c > p ∧ p < pp then PositionType.Long
    else if c < p ∧ p > pp then PositionType.Short
    else PositionType.None
  | _, _, _, _ => PositionType.None

/-- ma.rs: trading_decision_macd. -/
def trading_decision_macd (_tp : TradingPair) (mt : MarketDataTracker)
    (_closing_price : ℚ) : PositionType :=
  match mt.macd.macd_latest, mt.macd.signal.latest, mt.macd.macd_previous with
  | some macd, some signal, some macd_prev =>
    if macd > signal ∧ macd_prev < signal then
      if mt.macd_trend_ma.num_candles > 0 then
        match mt.macd_trend_ma.latest, mt.macd_trend_ma.penultimate with
        | some tl, some tprev => if tl ≥ tprev then PositionType.Long else PositionType.None
        | _, _ => PositionType.None
      else PositionType.Long
    else if macd < signal ∧ macd_prev > signal then PositionType.Short
    else PositionType.None
  | _, _, _ => PositionType.None

/-- process_md.rs, trading_decision lines 143-163: the `confirmed` flag
computed from the confirmation result and the raw indicator decision. -/
def decision_confirmed (conf : Option (Bool × CandleColor))
    (decision : PositionType) : Bool :=
  match conf with
  | some (allsame, color) =>
    if decision = PositionType.Long then
      (if color = CandleColor.GREEN then allsame else false)
    else if decision = PositionType.Short then
      (if color = CandleColor.RED then allsame else false)
    else false
  | Option.none => true

/-- process_md.rs, trading_decision lines 173-190: the take-profit override. -/
def take_profit_override_flag (mt : MarketDataTracker)
    (cur_position : Option (PositionType × ℚ × ℚ)) (closing_price : ℚ) : Bool :=
  match mt.take_profit_percent with
  | some tpp =>
    match cur_position with
    | some (t, _, price) =>
      decide (t = PositionType.Long) && decide (closing_price ≥ price + price / 100 * tpp)
    | Option.none => false
  | Option.none => false

/-- process_md.rs: trading_decision. `cur_position` is the snapshot returned
by AccountManager::get_position. The returned tracker carries the updated
candle-color history. In the source the `confirmed` flag only guards an
info-log line; the returned decision does not depend on it. -/
def trading_decision (cur_position : Option (PositionType × ℚ × ℚ))
    (tp : TradingPair) (mt : MarketDataTracker) (closing_price : ℚ)
    (prev_closing_price : Option ℚ) : MarketDataTracker × PositionType :=
  if (tp.bvlt_type).isSome then (mt, PositionType.None)
  else
    let decision :=
      match mt.trade_signal with
      | TradeSignal.MaCross => trading_decision_ma_cross tp mt closing_price
      | TradeSignal.MaTrendReversal => trading_decision_ma_trend_change tp mt closing_price
      | TradeSignal.MACDSig => trading_decision_macd tp mt closing_price
    let cres := trade_confirmation_via_previous_candles mt closing_price prev_closing_price
    let mt1 := cres.1
    let _confirmed := decision_confirmed cres.2 decision
    let cur_position_type :=
      match cur_position with
      | some (t, _, _) => t
      | Option.none => PositionType.None
    let tpo := take_profit_override_flag mt1 cur_position closing_price
    let decision1 :=
      if tpo && decide (cur_position_type = PositionType.Long) then PositionType.Short
      else decision
    let decision2 :=
      if decision1 = cur_position_type then PositionType.None else decision1
    (mt1, decision2)

/-- process_md.rs: the indicator-update step at the top of process_close_data. -/
def compute_indicators (mt : MarketDataTracker) (closing_price : ℚ) : MarketDataTracker :=
  match mt.trade_signal with
  | TradeSignal.MaCross =>
    { mt with slow_ma_data := mt.slow_ma_data.compute closing_price mt.ema,
              fast_ma_data := mt.fast_ma_data.compute closing_price mt.ema }
  | TradeSignal.MaTrendReversal =>
    { mt with fast_ma_data := mt.fast_ma_data.compute closing_price mt.ema }
  | TradeSignal.MACDSig =>
    let m := { mt with macd := mt.macd.compute closing_price }
    if m.macd_trend_ma.num_candles > 0 then
      { m with macd_trend_ma := m.macd_trend_ma.compute closing_price m.ema }
    else m

/-- process_md.rs: the order command handed to AccountManager::spot_trade. -/
structure OrderCommand where
  tp : TradingPair
  position : PositionType
  quantity : OrderQuantity
  limit_price : Option ℚ
  stop_percent : Option ℚ
deriving DecidableEq, Repr

/-- process_md.rs: process_close_data. Returns the updated tracker and the
order command submitted to the account manager, if any. The limit-offset
expect() is total in the source because configuration forces an offset for
limit orders; the impossible case is given offset 0. -/
def process_close_data (cur_position : Option (PositionType × ℚ × ℚ))
    (tp : TradingPair) (mt : MarketDataTracker) (closing_price : ℚ)
    (prev_closing_price : Option ℚ) (place_trades : Bool) :
    MarketDataTracker × Option OrderCommand :=
  let mt1 := compute_indicators mt closing_price
  if !place_trades then (mt1, none)
  else
    let dres := trading_decision cur_position tp mt1 closing_price prev_closing_price
    let mt2 := dres.1
    match dres.2 with
    | PositionType.None => (mt2, none)
    | decision =>
      let limit_price :=
        if mt2.order_type = OrderType.Limit then
          if decision = PositionType.Long then
            some (floorDp (closing_price + tp.tick_size * (mt2.limit_offset.getD 0 : ℚ))
                  tp.price_dps)
          else
            some (floorDp (closing_price - tp.tick_size * (mt2.limit_offset.getD 0 : ℚ))
                  tp.price_dps)
        else none
      (mt2, some { tp := tp, position := decision, quantity := OrderQuantity.Percentage100,
                   limit_price := limit_price, stop_percent := mt2.stop_percent })

/-- process_md.rs: the warm-up pass over historical candles, which calls
process_close_data with place_trades = false (the decision path and the
confirmation history are not touched). -/
def warmup (tp : TradingPair) (mt : MarketDataTracker) (closes : List ℚ) :
    MarketDataTracker :=
  closes.foldl (fun m c => (process_close_data none tp m c none false).1) mt

/-- process_md.rs: the live websocket loop, which calls process_close_data
with place_trades = true; `prev_closing_price` is never updated inside the
loop, so it stays fixed. Collects the emitted order commands. -/
def run_live (cur_position : Option (PositionType × ℚ × ℚ)) (tp : TradingPair) :
    MarketDataTracker → Option ℚ → List ℚ → MarketDataTracker × List OrderCommand
  | mt, _, [] => (mt, [])
  | mt, prev, c :: cs =>
    let r := process_close_data cur_position tp mt c prev true
    let rest := run_live cur_position tp r.1 prev cs
    (rest.1, (match r.2 with | some cmd => [cmd] | Option.none => []) ++ rest.2)

/-- driver for the confirmation filter alone: feed a list of closes in
order, each with the previous close as prev_closing_price (none for the
first), returning the tracker and the last confirmation result. -/
def run_confirmations : MarketDataTracker → Option ℚ → List ℚ →
    MarketDataTracker × Option (Bool × CandleColor)
  | mt, _, [] => (mt, none)
  | mt, prev, c :: cs =>
    let r := trade_confirmation_via_previous_candles mt c prev
    match cs with
    | [] => r
    | _ :: _ => run_confirmations r.1 (some c) cs

/-- order.rs: Fill (an average fill: price, quantity, commission and the
asset the commission was charged in). -/
structure Fill where
  price : ℚ
  qty : ℚ
  commission : ℚ
  commissionAsset : String
deriving DecidableEq, Repr

/-- order.rs: get_average_fill. The aggregated price is the plain arithmetic
mean of the per-fill prices (sum of prices divided by the number of fills);
quantities and commissions are summed; the commission asset is taken from
the first fill. -/
def get_average_fill : List Fill → Option Fill
  | [] => none
  | f :: fs =>
    let fills := f :: fs
    some { price := (fills.map Fill.price).sum / (fills.length : ℚ),
           qty := (fills.map Fill.qty).sum,
           commission := (fills.map Fill.commission).sum,
           commissionAsset := f.commissionAsset }

/-- The quantity-weighted average price (VWAP) that the specification
contrasts the code's aggregation with; written from the claim's words, not
from the source. -/
def vwap_of_fills (fills : List Fill) : ℚ :=
  (fills.map (fun f => f.price * f.qty)).sum / (fills.map Fill.qty).sum

/-- a stop-limit order request: quantity, trigger (stop) price and limit
price, as submitted to the exchange. -/
structure StopOrder where
  qty : ℚ
  stop_trigger_price : ℚ
  stop_limit_price : ℚ
deriving DecidableEq, Repr

/-- account_manager.rs: submit_stop_order, price computation. The trigger is
the fill price minus stop_percent percent of it, floored to price_dps, and
the limit price is set equal to the trigger; the quantity is passed through
unchanged (the caller passes the cumulative filled quantity). -/
def submit_stop_order (stop_percent price_paid : ℚ) (price_dps : ℤ) (qty : ℚ) :
    StopOrder :=
  let stop_trigger_price := floorDp (price_paid - price_paid * stop_percent / 100) price_dps
  let stop_limit_price := stop_trigger_price
  { qty := qty, stop_trigger_price := stop_trigger_price,
    stop_limit_price := stop_limit_price }

/-- order.rs: place_stop_loss, order computation. The trigger is the average
fill price minus stop_percent times the tick size, floored; the limit is the
trigger minus one tick, floored; the quantity is the filled quantity minus
the commission when the commission asset is the base (sell) currency,
floored to qty_dps. -/
def place_stop_loss_order (tp : TradingPair) (ave_fill : Fill) (stop_percent : ℚ) :
    StopOrder :=
  let stop_trigger_price :=
    floorDp (ave_fill.price - stop_percent * tp.tick_size) tp.price_dps
  let stop_limit_price := floorDp (stop_trigger_price - tp.tick_size) tp.price_dps
  let ncoins0 := if ave_fill.commissionAsset = tp.sell_currency
                 then ave_fill.qty - ave_fill.commission else ave_fill.qty
  { qty := floorDp ncoins0 tp.qty_dps, stop_trigger_price := stop_trigger_price,
    stop_limit_price := stop_limit_price }

/-- requests sent to the exchange by the stop-loss arming code. -/
inductive ExchangeAction where
  | stopLimitOrder (symbol : String) (order : StopOrder)
  | marketOrder (symbol : String) (side : PositionType) (qty : ℚ)
deriving DecidableEq, Repr

/-- whether an exchange action is a market order. -/
def ExchangeAction.isMarketOrder : ExchangeAction → Bool
  | .marketOrder _ _ _ => true
  | _ => false

/-- account_manager.rs: submit_stop_order, full behaviour. The oracle
`stop_accepted` is the exchange's response to the stop-limit request. On
rejection the function only logs an error: no fallback order of any kind is
submitted. Returns the requests sent and whether an error was logged. -/
def submit_stop_order_actions (symbol : String) (stop_percent price_paid : ℚ)
    (price_dps : ℤ) (qty : ℚ) (stop_accepted : Bool) :
    List ExchangeAction × Bool :=
  let so := submit_stop_order stop_percent price_paid price_dps qty
  ([ExchangeAction.stopLimitOrder symbol so], !stop_accepted)

/-- order.rs: place_stop_loss, full behaviour. Oracles: `stop_accepted` is
the exchange's response to the stop-limit request, `sell_ok` the response to
the fallback market sell. On stop rejection a market sell of the same
quantity is submitted immediately; a failure of that sell is only logged
(no retry). Returns the requests sent and whether an error ended the call. -/
def place_stop_loss_actions (tp : TradingPair) (ave_fill : Fill) (stop_percent : ℚ)
    (stop_accepted : Bool) (sell_ok : Bool) : List ExchangeAction × Bool :=
  let so := place_stop_loss_order tp ave_fill stop_percent
  let stop_req := ExchangeAction.stopLimitOrder tp.symbol so
  if stop_accepted then ([stop_req], false)
  else ([stop_req, ExchangeAction.marketOrder tp.symbol PositionType.Short so.qty],
        !sell_ok)

/-- balance.rs: Balance. -/
structure Balance where
  asset : String
  free : ℚ
  locked : ℚ
deriving DecidableEq, Repr

/-- the account-manager balance mirror (a HashMap from asset to Balance),
modelled as a lookup function. -/
def BalanceMap : Type := String → Option Balance

/-- the push-stream events that mutate the balance mirror. -/
inductive AccountEvent where
  | balanceUpdate (asset : String) (delta : ℚ)
  | outboundAccountPosition (updates : List (String × ℚ × ℚ))

/-- account_manager.rs, event_thread: effect of one push event on the
balance mirror. A balanceUpdate adds the delta to the named asset's free
balance and is logged and dropped when the asset is unknown; an
outboundAccountPosition snapshot replaces (or creates) the named assets'
entries with the pushed free and locked values. -/
def applyAccountEvent (m : BalanceMap) : AccountEvent → BalanceMap
  | .balanceUpdate asset delta =>
    match m asset with
    | some b => fun x => if x = asset then some { b with free := b.free + delta } else m x
    | Option.none => m
  | .outboundAccountPosition updates =>
    updates.foldl
      (fun acc u =>
        fun x => if x = u.1 then some { asset := u.1, free := u.2.1, locked := u.2.2 }
                 else acc x)
      m

/-- folding a whole event sequence over the balance mirror. -/
def applyAccountEvents (m : BalanceMap) (evs : List AccountEvent) : BalanceMap :=
  evs.foldl applyAccountEvent m

/-- the per-asset effect of one event, used to state that the mirror's final
value for an asset is determined by the subsequence of events applicable to
that asset: a snapshot naming it overrides both fields, a delta adds to the
free balance of an existing entry and is dropped when there is no entry. -/
def assetStep (a : String) (v : Option Balance) : AccountEvent → Option Balance
  | .balanceUpdate asset delta =>
    if a = asset then v.map (fun b => { b with free := b.free + delta }) else v
  | .outboundAccountPosition updates =>
    updates.foldl
      (fun v u => if a = u.1 then some { asset := u.1, free := u.2.1, locked := u.2.2 }
                  else v)
      v

/-- account_manager.rs, order_thread: the capped number of condition-variable
waits in the cancellation handshake. -/
def MAX_CANCEL_RETRIES : ℕ := 4

/-- account_manager.rs, order_thread: the Duration (in seconds) passed to
each Condvar::wait_timeout call of the cancellation handshake. -/
def CANCEL_WAIT_TIMEOUT_SECS : ℕ := 5

/-- account_manager.rs, order_thread lines 150-157: the bounded wait loop
`while *waiting && retry < 4 { waiting = cvar.wait_timeout(waiting, 5s); retry += 1 }`.
The environment `env` gives the value of the shared `waiting` flag observed
when the i-th wait returns (the event thread clears it on acknowledgement).
The fuel argument equals MAX_CANCEL_RETRIES - retry, so the guard and the
fuel run out together; returns (retry, waiting) after the loop. -/
def cancel_wait_aux (env : ℕ → Bool) : ℕ → Bool → ℕ → ℕ × Bool
  | 0, waiting, retry => (retry, waiting)
  | fuel + 1, waiting, retry =>
    if waiting && decide (retry < MAX_CANCEL_RETRIES) then
      cancel_wait_aux env fuel (env retry) (retry + 1)
    else (retry, waiting)

/-- outcome of the cancellation handshake on the order-thread side. -/
structure CancelWaitResult where
  waits : ℕ
  gave_up : Bool
  flag_after : Bool
  proceeds : Bool
deriving DecidableEq, Repr

/-- account_manager.rs, order_thread lines 144-163: set the waiting flag,
run the bounded wait loop, and if the flag is still set afterwards clear it
and log that we gave up; execution then proceeds to the balance read in
either case. -/
def order_thread_cancel_wait (env : ℕ → Bool) : CancelWaitResult :=
  let r := cancel_wait_aux env MAX_CANCEL_RETRIES true 0
  { waits := r.1,
    gave_up := r.2,
    flag_after := if r.2 then false else r.2,
    proceeds := true }

/-- account_manager.rs, order_thread lines 208-235: the requested quantity
for an order command, computed from the free balance, the reference price
and the OrderQuantity, floored to the pair's quantity decimal places. -/
def order_thread_requested_qty (position : PositionType) (free current_price : ℚ)
    (quantity : OrderQuantity) (qty_dps : ℤ) : ℚ :=
  let max_qty := if position = PositionType.Long then free / current_price else free
  floorDp
    (if position = PositionType.Long then
      match quantity with
      | OrderQuantity.Exact q => q
      | OrderQuantity.PercentageAmount q => max_qty * ((q : ℚ) / 100)
      | OrderQuantity.Percentage100 => max_qty
      | OrderQuantity.Percentage75 => max_qty * (3 / 4)
      | OrderQuantity.Percentage50 => max_qty * (1 / 2)
      | OrderQuantity.Percentage25 => max_qty * (1 / 4)
     else max_qty)
    qty_dps

/-- whether an OrderQuantity is one of the percentage-based variants, with
the 0-100 bound the source asserts for PercentageAmount. -/
def OrderQuantity.percentage_based : OrderQuantity → Prop
  | OrderQuantity.Exact _ => False
  | OrderQuantity.PercentageAmount q => q ≤ 100
  | _ => True

/-- requests sent to the exchange by the margin Long path (margin.rs). -/
inductive MarginAction where
  | closeShortBuy (symbol : String) (qty : ℚ)
  | marginRepay (asset : String) (amount : ℚ)
  | enterLongOrder (symbol : String) (spend : ℚ) (limit_price : Option ℚ) (borrow : Bool)
deriving DecidableEq, Repr

/-- whether a margin action is the repay call. -/
def MarginAction.isRepay : MarginAction → Bool
  | .marginRepay _ _ => true
  | _ => false

/-- whether a margin action is the long-entry order. -/
def MarginAction.isEnterLong : MarginAction → Bool
  | .enterLongOrder _ _ _ _ => true
  | _ => false

/-- outcome of the margin Long command. -/
inductive MarginTradeOutcome where
  | completed
  | abortedCloseShort
  | abortedEnterLong
deriving DecidableEq, Repr

/-- inputs and exchange responses for the margin Long path: the isolated
margin account snapshot fields the code reads, plus the oracles for the
three fallible exchange calls it makes. -/
structure MarginLongInputs where
  borrowed : ℚ
  interest : ℚ
  avail_quote_free : ℚ
  close_buy_ok : Bool
  repay_ok : Bool
  enter_long_ok : Bool

/-- margin.rs: trade, PositionType::Long branch (together with
close_short_position and enter_long_position). Outstanding short debt
owed = interest + borrowed is bought back at market (quantity
ceil(owed + owed/1000, qty_dps)) only when its notional at the current price
reaches the pair's minimum notional; the buy-back is followed by exactly one
repay call, whose failure aborts the command as a hard error; otherwise a
new long is entered spending the floored available quote margin, multiplied
by the leverage factor when one is configured, as a market or limit order.
Returns the requests sent and the outcome. -/
def margin_trade_long (tp : TradingPair) (inp : MarginLongInputs)
    (current_price closing_price : ℚ) (leverage : Option ℚ)
    (order_type : OrderType) (limit_offset : Option ℕ) :
    List MarginAction × MarginTradeOutcome :=
  let owed := inp.interest + inp.borrowed
  let commision := owed / 1000
  let purchase_qty := ceilDp (owed + commision) tp.qty_dps
  let close_part : List MarginAction × Bool :=
    if current_price * purchase_qty ≥ tp.min_notional then
      if inp.close_buy_ok then
        ([MarginAction.closeShortBuy tp.symbol purchase_qty,
          MarginAction.marginRepay tp.sell_currency owed], inp.repay_ok)
      else ([MarginAction.closeShortBuy tp.symbol purchase_qty], false)
    else ([], true)
  if !close_part.2 then (close_part.1, MarginTradeOutcome.abortedCloseShort)
  else
    let avail_spend := floorDp inp.avail_quote_free tp.price_dps
    let final_spend :=
      match leverage with
      | some l => floorDp (avail_spend * l) tp.price_dps
      | Option.none => avail_spend
    let limit_price :=
      match order_type with
      | OrderType.Market => none
      | OrderType.Limit => some (closing_price + (limit_offset.getD 0 : ℚ) * tp.tick_size)
    let acts := close_part.1 ++
      [MarginAction.enterLongOrder tp.symbol final_spend limit_price leverage.isSome]
    if inp.enter_long_ok then (acts, MarginTradeOutcome.completed)
    else (acts, MarginTradeOutcome.abortedEnterLong)

/-- account_manager.rs, event_thread: the mutable per-trade fill-aggregation
state threaded across executionReport events. -/
structure EventThreadState where
  fills : ℕ
  trade_buy_price : Option ℚ
  ave_trade_buy_price : Option ℚ
  trade_sell_price : Option ℚ
  trade_commission_usdt : Option ℚ
  total_buy_quantity : Option ℚ
  buy_is_filled : Bool
  buy_symbol : String
  cancelled_order : Bool
  positions : String → Option Position

/-- the initial event-thread state. -/
def EventThreadState.init : EventThreadState :=
  { fills := 0, trade_buy_price := none, ave_trade_buy_price := none,
    trade_sell_price := none, trade_commission_usdt := none,
    total_buy_quantity := none, buy_is_filled := false,
    buy_symbol := "NOSYMBOL", cancelled_order := false,
    positions := fun _ => none }

/-- an executionReport push event, with the fields the event thread reads:
symbol (s), side (S), order type (o), status (X), last fill price (L), the
cumulative filled quantity (z), and the already-converted USDT commission of
this fill (compute_commision_usdt's result, an oracle here). -/
structure ExecReport where
  symbol : String
  side : String
  order_type : String
  status : String
  last_price : ℚ
  cuml_filled_qty : ℚ
  commission_usdt : ℚ
deriving Repr

/-- account_manager.rs, event_thread lines 510-636: effect of one
executionReport on the fill-aggregation state. On a terminal FILLED BUY the
average buy price is the sum of the per-fill last prices divided by the
number of fills (an unweighted mean), the recorded quantity is the
cumulative filled quantity, and a Long Position entry is inserted with that
price; CANCELED clears the aggregation and removes the position. -/
def apply_execution_report (st : EventThreadState) (er : ExecReport) :
    EventThreadState :=
  if er.status = "CANCELED" then
    let st1 := { st with
      cancelled_order := true
      fills := 0
      positions := fun x => if x = st.buy_symbol then none else st.positions x }
    if er.order_type = "STOP_LOSS_LIMIT" then st1
    else { st1 with
      trade_buy_price := none
      trade_sell_price := none
      ave_trade_buy_price := none
      trade_commission_usdt := none }
  else if er.status = "FILLED" then
    let fills1 := st.fills + 1
    let st1 := { st with
      fills := fills1
      trade_commission_usdt :=
        some (st.trade_commission_usdt.getD 0 + er.commission_usdt) }
    if er.side = "BUY" then
      let buy_sum := er.last_price + st1.trade_buy_price.getD 0
      let ave := buy_sum / (fills1 : ℚ)
      { st1 with
        trade_buy_price := none
        ave_trade_buy_price := some ave
        total_buy_quantity := some er.cuml_filled_qty
        buy_symbol := er.symbol
        fills := 0
        buy_is_filled := true
        positions := fun x =>
          if x = er.symbol then
            some { type := PositionType.Long, qty := er.cuml_filled_qty, price := ave }
          else st1.positions x }
    else
      let _sell_sum := er.last_price + st1.trade_sell_price.getD 0
      { st1 with
        trade_sell_price := none
        trade_commission_usdt := none
        fills := 0
        positions := fun x => if x = st1.buy_symbol then none else st1.positions x }
  else if er.status = "PARTIALLY_FILLED" then
    let st1 := { st with
      fills := st.fills + 1
      trade_commission_usdt :=
        some (st.trade_commission_usdt.getD 0 + er.commission_usdt) }
    if er.side = "BUY" then
      { st1 with trade_buy_price := some (er.last_price + st1.trade_buy_price.getD 0) }
    else
      { st1 with trade_sell_price := some (er.last_price + st1.trade_sell_price.getD 0) }
  else st

/-- folding a sequence of execution reports over the event-thread state. -/
def apply_execution_reports (st : EventThreadState) (ers : List ExecReport) :
    EventThreadState :=
  ers.foldl apply_execution_report st

/-- a concrete non-BVLT trading pair with tick size 0.01, two price and two
quantity decimal places, used in the concrete evaluations below. -/
def adaPair : TradingPair :=
  { name := "ADA/USDT", symbol := "ADAUSDT", sell_currency := "ADA",
    buy_currency := "USDT", bvlt_type := none, price_dps := 2, qty_dps := 2,
    min_order := 1, tick_size := 1 / 100, min_notional := 10 }

/-- a concrete non-BVLT trading pair with integer granularity (price and
quantity decimal places 0, tick size 1). -/
def intPair : TradingPair :=
  { name := "ADA/USDT", symbol := "ADAUSDT", sell_currency := "ADA",
    buy_currency := "USDT", bvlt_type := none, price_dps := 0, qty_dps := 0,
    min_order := 1, tick_size := 1, min_notional := 10 }

/-- the average fill of the specification's stop-loss example: fill price
100, quantity 10, no commission. -/
def fill100 : Fill :=
  { price := 100, qty := 10, commission := 0, commissionAsset := "USDT" }

/-- a MarketDataTracker as built by process_market_data_thread for the
MaCross signal with fast window 2, slow window 3, simple averages, market
orders and one confirmation candle (so the color Vec has capacity 1). -/
def mtCross : MarketDataTracker :=
  { slow_ma_data := MAData.new 3, fast_ma_data := MAData.new 2, macd := MACD.new,
    desired_position := PositionType.None, trade_signal := TradeSignal.MaCross,
    candle_color_history := [], candle_color_capacity := 1, ema := false,
    bvlt := false, order_type := OrderType.Market, limit_offset := none,
    stop_percent := none, take_profit_percent := none,
    confirmation_candles := some 1, macd_trend_ma := MAData.new 0 }

/-- a MarketDataTracker as built by process_market_data_thread with three
confirmation candles (color Vec capacity 3), for the confirmation-filter
examples of the specification. -/
def mtConf3 : MarketDataTracker :=
  { mtCross with confirmation_candles := some 3, candle_color_capacity := 3 }

/-- a MarketDataTracker as built by process_market_data_thread for the
MaTrendReversal signal with fast window 1 and slow window 9. -/
def mtTrend : MarketDataTracker :=
  { slow_ma_data := MAData.new 9, fast_ma_data := MAData.new 1, macd := MACD.new,
    desired_position := PositionType.None,
    trade_signal := TradeSignal.MaTrendReversal,
    candle_color_history := [], candle_color_capacity := 0, ema := false,
    bvlt := false, order_type := OrderType.Market, limit_offset := none,
    stop_percent := none, take_profit_percent := none,
    confirmation_candles := none, macd_trend_ma := MAData.new 0 }

/-- a partial BUY fill execution report: last fill price 10, cumulative
quantity 1, no commission. -/
def erPartialBuy : ExecReport :=
  { symbol := "ADAUSDT", side := "BUY", order_type := "MARKET",
    status := "PARTIALLY_FILLED", last_price := 10, cuml_filled_qty := 1,
    commission_usdt := 0 }

/-- the terminal BUY fill execution report: last fill price 20, cumulative
quantity 4 (so this fill's own quantity is 3), no commission. -/
def erFilledBuy : ExecReport :=
  { symbol := "ADAUSDT", side := "BUY", order_type := "MARKET",
    status := "FILLED", last_price := 20, cuml_filled_qty := 4,
    commission_usdt := 0 }

/-- the two partial fills of that order as Fill records: 1 unit at 10 and 3
units at 20. -/
def unequalFills : List Fill :=
  [{ price := 10, qty := 1, commission := 0, commissionAsset := "ADA" },
   { price := 20, qty := 3, commission := 0, commissionAsset := "ADA" }]

/-- margin-long inputs where the short-debt buy-back succeeds but the
subsequent repay call fails: short debt 1 unit, no interest, 500 quote
margin free. -/
def repayFailInputs : MarginLongInputs :=
  { borrowed := 1, interest := 0, avail_quote_free := 500,
    close_buy_ok := true, repay_ok := false, enter_long_ok := true }

/-! Helper lemmas about decimal flooring. -/

theorem pow10_pos (d : ℤ) : (0:ℚ) < (10:ℚ)^d :=
  zpow_pos (by norm_num) d

theorem floorDp_le (x : ℚ) (d : ℤ) : floorDp x d ≤ x := by
  unfold floorDp
  rw [div_le_iff₀ (pow10_pos d)]
  exact Int.floor_le _

theorem floorDp_idem (x : ℚ) (d : ℤ) : floorDp (floorDp x d) d = floorDp x d := by
  unfold floorDp
  rw [div_mul_cancel₀ _ (ne_of_gt (pow10_pos d)), Int.floor_intCast]

/-- C3 counterexample: at the specification's own example (fill price 100,
stop_percent 2, tick size 0.01, two price decimal places, quantity 10), the
fill-confirmation arming path (account_manager::submit_stop_order) submits a
limit price equal to the trigger, not floor(trigger − tick_size); and
order::place_stop_loss computes trigger 99.98, not the claimed 98.00. -/
theorem submit_stop_order_contradicts_spec_example :
    (submit_stop_order 2 100 2 10).stop_limit_price ≠
      floorDp ((submit_stop_order 2 100 2 10).stop_trigger_price - 1 / 100) 2 ∧
    (place_stop_loss_order adaPair fill100 2).stop_trigger_price ≠ 98 := by
  constructor
  · norm_num [submit_stop_order, floorDp]
  · norm_num [place_stop_loss_order, adaPair, fill100, floorDp]

/-- C3 amended: the arming path triggered after a BUY fill confirmation
(submit_stop_order) computes trigger = floor(fill·(1 − stop_percent/100),
price_dp), sets the limit price equal to the trigger and passes the
quantity through unchanged; at the example this gives trigger = limit =
98.00. The trigger-minus-tick limit offset and the base-asset commission
deduction exist only in order::place_stop_loss, whose trigger is
fill − stop_percent·tick_size: at the example it submits trigger 99.98,
limit 99.97 and quantity 10. -/
theorem submit_stop_order_prices :
    (∀ sp fill dp q, submit_stop_order sp fill dp q =
      { qty := q, stop_trigger_price := floorDp (fill * (1 - sp / 100)) dp,
        stop_limit_price := floorDp (fill * (1 - sp / 100)) dp }) ∧
    submit_stop_order 2 100 2 10 =
      { qty := 10, stop_trigger_price := 98, stop_limit_price := 98 } ∧
    place_stop_loss_order adaPair fill100 2 =
      { qty := 10, stop_trigger_price := 9998 / 100, stop_limit_price := 9997 / 100 } := by
  refine ⟨fun sp fill dp q => ?_, ?_, ?_⟩
  · have h : fill - fill * sp / 100 = fill * (1 - sp / 100) := by ring
    simp [submit_stop_order, h]
  · norm_num [submit_stop_order, floorDp]
  · norm_num [place_stop_loss_order, adaPair, fill100, floorDp]

/-- C2 counterexample: when the fill-confirmation arming path
(account_manager::submit_stop_order) has its stop order rejected, it submits
no market order at all (it only logs the error), contradicting the claimed
immediate market-sell fallback. -/
theorem submit_stop_order_no_fallback :
    ((submit_stop_order_actions "ADAUSDT" 2 100 2 10 false).1.countP
      ExchangeAction.isMarketOrder = 0) ∧
    (submit_stop_order_actions "ADAUSDT" 2 100 2 10 false).2 = true := by
  constructor <;> rfl

/-- C2 amended: the market-sell fallback lives in order::place_stop_loss
(invoked directly by the spot/BVLT trade paths, not by the fill-confirmation
event): when the stop-limit submission is rejected it immediately submits
one market sell for the armed quantity, retries neither order, and a failure
of the fallback sell is surfaced only as a logged error; when the stop is
accepted no market order is sent. -/
theorem place_stop_loss_fallback (tp : TradingPair) (ave_fill : Fill)
    (stop_percent : ℚ) (sell_ok : Bool) :
    (place_stop_loss_actions tp ave_fill stop_percent false sell_ok).1 =
      [ExchangeAction.stopLimitOrder tp.symbol
        (place_stop_loss_order tp ave_fill stop_percent),
       ExchangeAction.marketOrder tp.symbol PositionType.Short
        (place_stop_loss_order tp ave_fill stop_percent).qty] ∧
    (place_stop_loss_actions tp ave_fill stop_percent false sell_ok).1.countP
      ExchangeAction.isMarketOrder = 1 ∧
    (place_stop_loss_actions tp ave_fill stop_percent false sell_ok).2 = !sell_ok ∧
    (place_stop_loss_actions tp ave_fill stop_percent true sell_ok).1.countP
      ExchangeAction.isMarketOrder = 0 := by
  refine ⟨rfl, ?_, rfl, rfl⟩
  simp [place_stop_loss_actions, List.countP, List.countP.go, ExchangeAction.isMarketOrder]

/-- C8 counterexample: a Long order command computed from a free quote
balance of 100 at price 1/2 requests quantity 200 (the quantity is in base
units, free/price, not bounded by the quote balance), so the claimed bound
quantity ≤ free fails. -/
theorem order_thread_qty_exceeds_free :
    ¬ (order_thread_requested_qty PositionType.Long 100 (1 / 2)
        OrderQuantity.Percentage100 0 ≤ 100) := by
  norm_num [order_thread_requested_qty, floorDp]

/-- C8 amended: for percentage-based quantities the computed quantity never
exceeds the balance-derived maximum — free/price in base units for a Long,
the free balance itself for a Short — and decimal floor-rounding is
idempotent. -/
theorem order_thread_qty_bounded (free current_price : ℚ) (q : OrderQuantity)
    (dps : ℤ) (hf : 0 ≤ free) (hp : 0 < current_price)
    (hq : q.percentage_based) :
    order_thread_requested_qty PositionType.Long free current_price q dps ≤
      free / current_price ∧
    order_thread_requested_qty PositionType.Short free current_price q dps ≤ free ∧
    ∀ x d, floorDp (floorDp x d) d = floorDp x d := by
  have hmax : 0 ≤ free / current_price := div_nonneg hf hp.le
  refine ⟨?_, ?_, fun x d => floorDp_idem x d⟩
  · unfold order_thread_requested_qty
    simp only [if_pos rfl, reduceIte]
    refine le_trans (floorDp_le _ _) ?_
    cases q with
    | Exact q => exact absurd hq (by simp [OrderQuantity.percentage_based])
    | PercentageAmount q =>
      have hq' : (q : ℚ) / 100 ≤ 1 := by
        rw [div_le_one (by norm_num)]
        exact_mod_cast hq
      exact mul_le_of_le_one_right hmax hq'
    | Percentage25 => exact mul_le_of_le_one_right hmax (by norm_num)
    | Percentage50 => exact mul_le_of_le_one_right hmax (by norm_num)
    | Percentage75 => exact mul_le_of_le_one_right hmax (by norm_num)
    | Percentage100 => exact le_refl _
  · unfold order_thread_requested_qty
    simp only [reduceCtorEq, if_false]
    exact floorDp_le _ _

/-- C8 witness: the amended bound and the rounding idempotence at concrete
inputs (free 100, price 2, 50 percent, no decimals; x = 15.7, one decimal). -/
theorem order_thread_qty_bounded_witness :
    order_thread_requested_qty PositionType.Long 100 2 OrderQuantity.Percentage50 0 ≤
      100 / 2 ∧
    floorDp (floorDp (157 / 10) 1) 1 = floorDp (157 / 10) 1 := by
  have h := order_thread_qty_bounded 100 2 OrderQuantity.Percentage50 0
    (by norm_num) (by norm_num) (by simp [OrderQuantity.percentage_based])
  exact ⟨h.1, h.2.2 (157 / 10) 1⟩

/-- Helper: the pointwise effect of one account event on one asset. -/
theorem applyAccountEvent_pointwise (m : BalanceMap) (e : AccountEvent) (a : String) :
    applyAccountEvent m e a = assetStep a (m a) e := by
  cases e with
  | balanceUpdate asset delta =>
    by_cases hx : a = asset
    · subst hx
      cases h : m a <;> simp [applyAccountEvent, assetStep, h]
    · cases h : m asset <;> simp [applyAccountEvent, assetStep, h, hx]
  | outboundAccountPosition updates =>
    show (updates.foldl _ m) a = updates.foldl _ (m a)
    induction updates generalizing m with
    | nil => rfl
    | cons u us ih =>
      simp only [List.foldl]
      rw [ih]

/-- C6: for every sequence of balance-delta and balance-snapshot events, the
mirror's final entry for an asset is obtained by folding the per-asset
semantics over the events: a snapshot naming the asset replaces both free
and locked (creating the entry if needed), a delta adds to the free value of
an existing entry, and a delta for an asset with no entry is dropped without
changing anything. -/
theorem balance_mirror_last_event_wins (m : BalanceMap) (evs : List AccountEvent)
    (a : String) :
    applyAccountEvents m evs a = evs.foldl (assetStep a) (m a) := by
  induction evs generalizing m with
  | nil => rfl
  | cons e evs ih =>
    show applyAccountEvents (applyAccountEvent m e) evs a = _
    rw [ih, applyAccountEvent_pointwise]
    rfl

/-- Helper: the bounded cancel-wait loop performs at most `fuel` further
waits on top of the current retry count. -/
theorem cancel_wait_aux_le (env : ℕ → Bool) :
    ∀ fuel w r, (cancel_wait_aux env fuel w r).1 ≤ r + fuel := by
  intro fuel
  induction fuel with
  | zero => intro w r; simp [cancel_wait_aux]
  | succ fuel ih =>
    intro w r
    simp only [cancel_wait_aux]
    by_cases h : (w && decide (r < MAX_CANCEL_RETRIES)) = true
    · rw [if_pos h]
      calc (cancel_wait_aux env fuel (env r) (r + 1)).1 ≤ (r + 1) + fuel := ih _ _
        _ = r + (fuel + 1) := by omega
    · rw [if_neg h]
      omega

/-- Helper: when the environment never clears the flag, the loop ends with
the flag still set. -/
theorem cancel_wait_aux_unacked (env : ℕ → Bool) (h : ∀ i, env i = true) :
    ∀ fuel r, (cancel_wait_aux env fuel true r).2 = true := by
  intro fuel
  induction fuel with
  | zero => intro r; simp [cancel_wait_aux]
  | succ fuel ih =>
    intro r
    simp only [cancel_wait_aux]
    by_cases hr : (true && decide (r < MAX_CANCEL_RETRIES)) = true
    · rw [if_pos hr, h r]
      exact ih _
    · rw [if_neg hr]

/-- C7: the cancellation handshake on the order-thread side is bounded: for
every behaviour of the shared waiting flag it performs at most
MAX_CANCEL_RETRIES (= 4) condition-variable waits, each with a
CANCEL_WAIT_TIMEOUT_SECS (= 5) second timeout, the flag is clear when the
loop is over (cleared by the order thread itself on timeout), execution
always proceeds to the rest of the command, and when no acknowledgement ever
arrives the give-up path is taken (logged). -/
theorem cancel_wait_bounded (env : ℕ → Bool) :
    (order_thread_cancel_wait env).waits ≤ MAX_CANCEL_RETRIES ∧
    (order_thread_cancel_wait env).flag_after = false ∧
    (order_thread_cancel_wait env).proceeds = true ∧
    MAX_CANCEL_RETRIES = 4 ∧ CANCEL_WAIT_TIMEOUT_SECS = 5 ∧
    ((∀ i, env i = true) → (order_thread_cancel_wait env).gave_up = true) := by
  refine ⟨?_, ?_, rfl, rfl, rfl, ?_⟩
  · have h := cancel_wait_aux_le env MAX_CANCEL_RETRIES true 0
    simpa [order_thread_cancel_wait] using h
  · unfold order_thread_cancel_wait
    cases h : (cancel_wait_aux env MAX_CANCEL_RETRIES true 0).2 <;> simp
  · intro h
    have := cancel_wait_aux_unacked env h MAX_CANCEL_RETRIES 0
    simpa [order_thread_cancel_wait] using this

/-- C7 witness: with an environment that never acknowledges, the wait count
stays within the bound and the give-up path is taken. -/
theorem cancel_wait_bounded_witness :
    (order_thread_cancel_wait (fun _ => true)).waits ≤ MAX_CANCEL_RETRIES ∧
    (order_thread_cancel_wait (fun _ => true)).gave_up = true :=
  ⟨(cancel_wait_bounded (fun _ => true)).1,
   (cancel_wait_bounded (fun _ => true)).2.2.2.2.2 (fun _ => rfl)⟩

/-- C10: the average price aggregated across the partial fills of one order
is the unweighted arithmetic mean of the per-fill prices: for fills of 1
unit at 10 and 3 units at 20, order::get_average_fill reports price 15 and
the event thread records a Long position entry at price 15 for the
cumulative quantity 4, while the quantity-weighted average of the same
fills is 17.5 — so the recorded entry price differs from the VWAP. -/
theorem average_fill_is_unweighted_mean :
    get_average_fill unequalFills =
      some { price := 15, qty := 4, commission := 0, commissionAsset := "ADA" } ∧
    (apply_execution_reports EventThreadState.init [erPartialBuy, erFilledBuy]).positions
      "ADAUSDT" = some { type := PositionType.Long, qty := 4, price := 15 } ∧
    vwap_of_fills unequalFills = 35 / 2 ∧
    (15 : ℚ) ≠ 35 / 2 := by
  refine ⟨?_, ?_, ?_, by norm_num⟩
  · norm_num [get_average_fill, unequalFills]
  · simp only [apply_execution_reports, List.foldl, erPartialBuy, erFilledBuy,
      apply_execution_report, EventThreadState.init, String.reduceEq, reduceIte]
    norm_num
  · norm_num [vwap_of_fills, unequalFills]

theorem compute_indicators_trade_signal (mt : MarketDataTracker) (c : ℚ) :
    (compute_indicators mt c).trade_signal = mt.trade_signal := by
  unfold compute_indicators
  cases h : mt.trade_signal <;> simp [h]
  split <;> rfl

theorem compute_indicators_slow_trend (mt : MarketDataTracker) (c : ℚ)
    (h : mt.trade_signal = TradeSignal.MaTrendReversal) :
    (compute_indicators mt c).slow_ma_data = mt.slow_ma_data := by
  unfold compute_indicators
  rw [h]

theorem trade_confirmation_preserves (mt : MarketDataTracker) (c : ℚ)
    (p : Option ℚ) :
    (trade_confirmation_via_previous_candles mt c p).1.trade_signal = mt.trade_signal ∧
    (trade_confirmation_via_previous_candles mt c p).1.slow_ma_data = mt.slow_ma_data := by
  unfold trade_confirmation_via_previous_candles
  cases mt.confirmation_candles <;> cases p <;> simp

theorem trend_change_decision_none (tp : TradingPair) (mt : MarketDataTracker)
    (c : ℚ) (h : mt.slow_ma_data.latest = none) :
    trading_decision_ma_trend_change tp mt c = PositionType.None := by
  unfold trading_decision_ma_trend_change
  rw [h]

theorem trading_decision_preserves (cur : Option (PositionType × ℚ × ℚ))
    (tp : TradingPair) (mt : MarketDataTracker) (c : ℚ) (p : Option ℚ) :
    (trading_decision cur tp mt c p).1.trade_signal = mt.trade_signal ∧
    (trading_decision cur tp mt c p).1.slow_ma_data = mt.slow_ma_data := by
  unfold trading_decision
  by_cases hb : (tp.bvlt_type).isSome <;> simp [hb, trade_confirmation_preserves]

theorem trading_decision_trend_not_long (cur : Option (PositionType × ℚ × ℚ))
    (tp : TradingPair) (mt : MarketDataTracker) (c : ℚ) (p : Option ℚ)
    (h1 : mt.trade_signal = TradeSignal.MaTrendReversal)
    (h2 : mt.slow_ma_data.latest = none) :
    (trading_decision cur tp mt c p).2 ≠ PositionType.Long := by
  unfold trading_decision
  cases hbv : tp.bvlt_type with
  | some b => simp [hbv]
  | none =>
    simp only [hbv, Option.isSome_none, Bool.false_eq_true, if_false, h1,
      trend_change_decision_none tp mt c h2]
    split <;> split <;> simp

theorem process_close_data_cmd_position (cur : Option (PositionType × ℚ × ℚ))
    (tp : TradingPair) (mt : MarketDataTracker) (c : ℚ) (p : Option ℚ) (pt : Bool)
    (cmd : OrderCommand) (h : (process_close_data cur tp mt c p pt).2 = some cmd) :
    cmd.position = (trading_decision cur tp (compute_indicators mt c) c p).2 := by
  unfold process_close_data at h
  cases pt with
  | false => simp at h
  | true =>
    simp only [Bool.not_true, Bool.false_eq_true, if_false] at h
    cases hdec : (trading_decision cur tp (compute_indicators mt c) c p).2 with
    | Long =>
      simp only [hdec, Option.some.injEq] at h
      rw [← h]
    | Short =>
      simp only [hdec, Option.some.injEq] at h
      rw [← h]
    | None => simp [hdec] at h

theorem process_close_data_fst (cur : Option (PositionType × ℚ × ℚ))
    (tp : TradingPair) (mt : MarketDataTracker) (c : ℚ) (p : Option ℚ) :
    (process_close_data cur tp mt c p true).1 =
      (trading_decision cur tp (compute_indicators mt c) c p).1 := by
  unfold process_close_data
  simp only [Bool.not_true, Bool.false_eq_true, if_false]
  cases hdec : (trading_decision cur tp (compute_indicators mt c) c p).2 <;>
    simp [hdec]

theorem process_close_data_preserves (cur : Option (PositionType × ℚ × ℚ))
    (tp : TradingPair) (mt : MarketDataTracker) (c : ℚ) (p : Option ℚ) (pt : Bool)
    (h1 : mt.trade_signal = TradeSignal.MaTrendReversal) :
    (process_close_data cur tp mt c p pt).1.trade_signal = TradeSignal.MaTrendReversal ∧
    (process_close_data cur tp mt c p pt).1.slow_ma_data = mt.slow_ma_data := by
  have hsig := compute_indicators_trade_signal mt c
  have hslow := compute_indicators_slow_trend mt c h1
  have hd := trading_decision_preserves cur tp (compute_indicators mt c) c p
  cases pt with
  | false =>
    have hfst : (process_close_data cur tp mt c p false).1 = compute_indicators mt c := rfl
    rw [hfst]
    exact ⟨by rw [hsig, h1], hslow⟩
  | true =>
    rw [process_close_data_fst]
    exact ⟨by rw [hd.1, hsig, h1], by rw [hd.2, hslow]⟩

/-- C5: in MaTrendReversal mode the decision engine never emits a Long
command for any sequence of closed candles, because process_close_data only
feeds the fast MA in that mode while trading_decision_ma_trend_change
requires a slow-MA value, which therefore stays None forever — the
TrendReversal Long signal described by the specification is not producible
by the per-candle update path. -/
theorem trend_reversal_never_long (cur : Option (PositionType × ℚ × ℚ))
    (tp : TradingPair) (mt : MarketDataTracker) (prev : Option ℚ) (closes : List ℚ)
    (h1 : mt.trade_signal = TradeSignal.MaTrendReversal)
    (h2 : mt.slow_ma_data.latest = none) :
    (run_live cur tp mt prev closes).2.all
      (fun cmd => cmd.position != PositionType.Long) = true := by
  induction closes generalizing mt with
  | nil => rfl
  | cons c cs ih =>
    have h1c : (compute_indicators mt c).trade_signal = TradeSignal.MaTrendReversal := by
      rw [compute_indicators_trade_signal, h1]
    have h2c : (compute_indicators mt c).slow_ma_data.latest = none := by
      rw [compute_indicators_slow_trend mt c h1, h2]
    have hpres := process_close_data_preserves cur tp mt c prev true h1
    simp only [run_live, List.all_append, Bool.and_eq_true]
    constructor
    · cases hr : (process_close_data cur tp mt c prev true).2 with
      | none => simp
      | some cmd =>
        have hpos := process_close_data_cmd_position cur tp mt c prev true cmd hr
        have hnl := trading_decision_trend_not_long cur tp (compute_indicators mt c)
          c prev h1c h2c
        simp only [List.all_cons, List.all_nil, Bool.and_true]
        rw [hpos]
        simpa using hnl
    · exact ih _ hpres.1 (by rw [hpres.2, h2])

/-- C5 witness: a fresh TrendReversal tracker (fast window 1) fed the closes
3, 1, 2 — an upward inflection in the fast MA that the specification says
yields a Long — emits no Long command. -/
theorem trend_reversal_never_long_witness :
    (run_live none intPair mtTrend none [3, 1, 2]).2.all
      (fun cmd => cmd.position != PositionType.Long) = true :=
  trend_reversal_never_long none intPair mtTrend none [3, 1, 2] rfl rfl

/-- C9: in the margin Long path the short-debt buy-back is submitted exactly
when the repurchase notional (current price times the ceiling-rounded
quantity owed plus commission) reaches the pair's minimum notional; a repay
failure after a successful close-buy aborts the command as a hard error
with the repay attempted exactly once and no long entry; and otherwise the
new long is entered spending the floored available quote margin, multiplied
by the leverage factor when configured, as a market or limit order. -/
theorem margin_long_repay_protocol (tp : TradingPair) (inp : MarginLongInputs)
    (current_price closing_price : ℚ) (leverage : Option ℚ)
    (order_type : OrderType) (limit_offset : Option ℕ) :
    ((MarginAction.closeShortBuy tp.symbol
        (ceilDp ((inp.interest + inp.borrowed) + (inp.interest + inp.borrowed) / 1000)
          tp.qty_dps)) ∈
      (margin_trade_long tp inp current_price closing_price leverage order_type
        limit_offset).1 ↔
      current_price *
        ceilDp ((inp.interest + inp.borrowed) + (inp.interest + inp.borrowed) / 1000)
          tp.qty_dps ≥ tp.min_notional) ∧
    (current_price *
        ceilDp ((inp.interest + inp.borrowed) + (inp.interest + inp.borrowed) / 1000)
          tp.qty_dps ≥ tp.min_notional →
      inp.close_buy_ok = true → inp.repay_ok = false →
      (margin_trade_long tp inp current_price closing_price leverage order_type
        limit_offset).2 = MarginTradeOutcome.abortedCloseShort ∧
      ((margin_trade_long tp inp current_price closing_price leverage order_type
        limit_offset).1.countP MarginAction.isRepay = 1) ∧
      ((margin_trade_long tp inp current_price closing_price leverage order_type
        limit_offset).1.countP MarginAction.isEnterLong = 0)) ∧
    ((current_price *
        ceilDp ((inp.interest + inp.borrowed) + (inp.interest + inp.borrowed) / 1000)
          tp.qty_dps ≥ tp.min_notional →
        inp.close_buy_ok = true ∧ inp.repay_ok = true) →
      MarginAction.enterLongOrder tp.symbol
        (match leverage with
         | some l => floorDp (floorDp inp.avail_quote_free tp.price_dps * l) tp.price_dps
         | Option.none => floorDp inp.avail_quote_free tp.price_dps)
        (match order_type with
         | OrderType.Market => none
         | OrderType.Limit =>
           some (closing_price + (limit_offset.getD 0 : ℚ) * tp.tick_size))
        leverage.isSome ∈
      (margin_trade_long tp inp current_price closing_price leverage order_type
        limit_offset).1) := by
  obtain ⟨b, i, aq, cb, rp, el⟩ := inp
  by_cases hmin : current_price * ceilDp ((i + b) + (i + b) / 1000) tp.qty_dps ≥
      tp.min_notional <;>
    cases cb <;> cases rp <;> cases el <;>
      simp [margin_trade_long, hmin, MarginAction.isRepay, MarginAction.isEnterLong,
        List.countP, List.countP.go]




theorem margin_long_repay_protocol_witness :
    (margin_trade_long intPair repayFailInputs 10 10 none OrderType.Market none).2 =
      MarginTradeOutcome.abortedCloseShort ∧
    (margin_trade_long intPair repayFailInputs 10 10 none OrderType.Market
      none).1.countP MarginAction.isRepay = 1 := by
  have h := (margin_long_repay_protocol intPair repayFailInputs 10 10 none
    OrderType.Market none).2.1
    (by norm_num [ceilDp, intPair, repayFailInputs]
        exact le_trans (by norm_num) (Int.le_ceil _)) rfl rfl
  exact ⟨h.1, h.2.1⟩

set_option maxHeartbeats 2000000 in
/-- C4: the confirmation filter compares confirmation_candles against the
color Vec's capacity (they are equal by construction), so it pops the last
color before every push and the history never holds more than one color:
with K = 3, the closes 10, 9, 12, 13 (red, green, green) still confirm a
pending Long — against the specification's example — and after only one
color (closes 10, 11) the filter already reports confirmation instead of
failing closed. -/
theorem confirmation_filter_keeps_one_color :
    (run_confirmations mtConf3 none [10, 9, 12, 13]).2 =
      some (true, CandleColor.GREEN) ∧
    decision_confirmed (run_confirmations mtConf3 none [10, 9, 12, 13]).2
      PositionType.Long = true ∧
    (run_confirmations mtConf3 none [10, 9, 12, 13]).1.candle_color_history.length = 1 ∧
    (run_confirmations mtConf3 none [10, 11]).2 = some (true, CandleColor.GREEN) := by
  refine ⟨?_, ?_, ?_, ?_⟩ <;>
    norm_num [run_confirmations, trade_confirmation_via_previous_candles, mtConf3,
      mtCross, decision_confirmed]

set_option maxHeartbeats 4000000 in
/-- C1: the `(confirmed or take_profit_override)` test in trading_decision
only guards an info-log line, not the returned decision: warming a MaCross
tracker (fast 2, slow 3, one confirmation candle) with closes 2, 20 and then
processing the live close 14 emits a Long order command even though the
confirmation filter reports a RED candle (decision_confirmed is false) and
no take-profit override fired — an unconfirmed signal is emitted as an
order, contrary to the claim. -/
theorem unconfirmed_cross_signal_emitted :
    ((process_close_data none intPair (warmup intPair mtCross [2, 20]) 14 (some 20)
        true).2.map OrderCommand.position) = some PositionType.Long ∧
    decision_confirmed
      (trade_confirmation_via_previous_candles
        (compute_indicators (warmup intPair mtCross [2, 20]) 14) 14 (some 20)).2
      (trading_decision_ma_cross intPair
        (compute_indicators (warmup intPair mtCross [2, 20]) 14) 14) = false ∧
    take_profit_override_flag
      (compute_indicators (warmup intPair mtCross [2, 20]) 14) none 14 = false := by
  refine ⟨?_, ?_, ?_⟩
  · norm_num [warmup, process_close_data, compute_indicators, MAData.compute,
      MAData.update, MAData.new, MACD.new, trading_decision, trading_decision_ma_cross,
      trade_confirmation_via_previous_candles, decision_confirmed,
      take_profit_override_flag, floorDp, mtCross, intPair]
    simp
  · norm_num [warmup, process_close_data, compute_indicators, MAData.compute,
      MAData.update, MAData.new, MACD.new, trading_decision_ma_cross,
      trade_confirmation_via_previous_candles, decision_confirmed, floorDp,
      mtCross, intPair]
    decide
  · norm_num [warmup, process_close_data, compute_indicators, MAData.compute,
      MAData.update, MAData.new, MACD.new, trading_decision, trading_decision_ma_cross,
      trade_confirmation_via_previous_candles, decision_confirmed,
      take_profit_override_flag, floorDp, mtCross, intPair]

end CT
